import Mathlib

/-!
Shallow embedding of `src/python/composio/tools/env/daytona/workspace.py`
(the Daytona workspace adapter of the composio repository).

The adapter wraps the external `daytona_sdk` client.  External behaviour
(the provider's `create`, `get_preview_link`, the process environment and
Python's `float` conversion on strings) is modelled as an explicit
`World` oracle; the adapter's own control flow and data flow are
translated line by line from the source.  Provider-visible actions are
recorded in an event trace so that claims about which calls happen (and
in which order) can be stated.
-/

/-- Opaque vendor type `daytona_sdk.CodeLanguage`; the adapter never
inspects it, only forwards it. -/
structure SandboxCodeLanguage where
  val : String
deriving DecidableEq

/-- Opaque vendor type `daytona_sdk.SandboxTargetRegion`. -/
structure DaytonaSandboxTargetRegion where
  val : String
deriving DecidableEq

/-- Opaque vendor type `daytona_sdk.SandboxResources`. -/
structure DaytonaSandboxResources where
  val : String
deriving DecidableEq

/-- `composio.exceptions.ComposioSDKError`, carrying its message. -/
structure ComposioSDKError where
  message : String
deriving DecidableEq

/-- Python runtime errors the embedded code can raise. -/
inductive PyError where
  /-- `ValueError`, raised by `float(...)` on a non-numeric string. -/
  | valueError : PyError
  /-- `AttributeError`, raised by reading an attribute that was never
  assigned. -/
  | attributeError : PyError
  /-- `ImportError`, raised by a failing `from ... import ...`. -/
  | importError : PyError
  /-- `NameError`, raised by evaluating a name that was never bound. -/
  | nameError : PyError
deriving DecidableEq

/-- The `Config` dataclass of `workspace.py` (lines 29-64): a flat record
of optional fields.  The fields of the base `WorkspaceConfigType` are not
read by this file and are omitted. -/
structure Config where
  api_key : Option String
  language : Option SandboxCodeLanguage
  id : Option String
  name : Option String
  image : Option String
  env_vars : Option (List (String × String))
  labels : Option (List (String × String))
  public : Option Bool
  target : Option DaytonaSandboxTargetRegion
  resources : Option DaytonaSandboxResources
  auto_stop_interval : Option Int
deriving DecidableEq

/-- The vendor's `CreateSandboxParams` bag, with the fields the adapter
fills in (lines 84-95). -/
structure CreateDaytonaSandboxParams where
  language : Option SandboxCodeLanguage
  id : Option String
  name : Option String
  image : Option String
  env_vars : Option (List (String × String))
  labels : Option (List (String × String))
  public : Option Bool
  target : Option DaytonaSandboxTargetRegion
  resources : Option DaytonaSandboxResources
  auto_stop_interval : Option Int
deriving DecidableEq

/-- The vendor's `DaytonaConfig` (line 80-83): api key plus server URL. -/
structure DaytonaConfig where
  api_key : Option String
  server_url : String
deriving DecidableEq

/-- The vendor's `Daytona` client, built from a `DaytonaConfig`; the
adapter reads back only `server_url`. -/
structure Daytona where
  config : DaytonaConfig
deriving DecidableEq

/-- The client attribute `daytona.server_url` read in `setup`. -/
def Daytona.server_url (d : Daytona) : String :=
  d.config.server_url

/-- The sandbox handle returned by `daytona.create`; the adapter reads
only its `id` (and calls its methods through the `World` oracle). -/
structure Sandbox where
  id : String
deriving DecidableEq

/-- Provider-visible actions of the adapter, in program order. -/
inductive Event where
  /-- `self.daytona.create(params=...)` -/
  | createCall (params : CreateDaytonaSandboxParams) : Event
  /-- `self.daytona_sandbox.get_preview_link(port)` -/
  | previewLinkCall (sb : Sandbox) (port : Nat) : Event
  /-- `self.daytona_sandbox.wait_for_sandbox_start(timeout)` -/
  | waitForStartCall (sb : Sandbox) (timeout : Rat) : Event
  /-- `super().teardown()` -/
  | baseTeardownCall : Event
  /-- `self.daytona.remove(sandbox)` -/
  | removeCall (sb : Sandbox) : Event
deriving DecidableEq

/-- The external world the adapter runs against: the provider's responses,
the process environment and Python's `float` conversion.  `pyFloat`
models `float(s)` on a string `s`: `some x` when `s` parses as a Python
float literal with value `x`, `none` when `float` raises `ValueError`. -/
structure World where
  createResult : CreateDaytonaSandboxParams → Sandbox
  previewLink : Sandbox → Nat → String
  envWorkspaceWaitTimeout : Option String
  pyFloat : String → Option Rat

/-- The `DaytonaWorkspace` object state.  Attributes assigned after
construction are `Option`-valued (`none` means the attribute was never
assigned).  `daytona_sandbox : Option (Option Sandbox)` distinguishes the
attribute being absent (`none`) from it being assigned Python `None`
(`some none`).

Modelled from the spec: the base class `RemoteWorkspace` is not part of
this file's source; per the spec it owns a generic workspace lifecycle
and never stores the sandbox handle itself, so no attribute named
`sandbox` is ever assigned on the object; `has_sandbox_attr` records
whether one exists and stays `false`. -/
structure DaytonaWorkspace where
  daytona : Daytona
  daytona_create_sandbox_params : CreateDaytonaSandboxParams
  daytona_sandbox : Option (Option Sandbox)
  has_sandbox_attr : Bool
  url : Option String
  host : Option String
  ports : Option (List Nat)

/-- The error message of `workspace.py` lines 72-76. -/
def daytonaMissingMessage : String :=
  "`daytona` is required to use daytona workspace, run `pip3 install composio-core[daytona]` or `pip3 install daytona-sdk` to install"

/-- `DaytonaWorkspace.__init__` (lines 69-95), as it runs once the
module has loaded.  `daytonaInstalled` is the module-level
`DAYTONA_INSTALLED` flag: `true` (line 22) when the try-block imports of
lines 13-20 all succeeded, `false` (line 25) when one of them raised
`ImportError`.  The flag does not mean the SDK is importable at all:
whether a load of the module even reaches a state where this code can
run is modelled by `loadModule` below, and an unimportable `daytona_sdk`
makes the unguarded line-7 import abort the load before this class
exists. -/
def DaytonaWorkspace.init (daytonaInstalled : Bool) (config : Config) :
    Except ComposioSDKError DaytonaWorkspace :=
  match daytonaInstalled with
  | false => .error { message := daytonaMissingMessage }
  | true =>
    .ok {
      daytona := { config := {
        api_key := config.api_key,
        server_url := "https://app.daytona.io/api" } },
      daytona_create_sandbox_params := {
        language := config.language,
        id := config.id,
        name := config.name,
        image := config.image,
        env_vars := config.env_vars,
        labels := config.labels,
        public := config.public,
        target := config.target,
        resources := config.resources,
        auto_stop_interval := config.auto_stop_interval },
      daytona_sandbox := none,
      has_sandbox_attr := false,
      url := none,
      host := none,
      ports := none }

/-- What the installed `daytona_sdk` package provides, the input to
module loading.  `absent`: the package is not importable at all.
`missingOtherName`: the package imports but at least one of `Daytona`,
`CodeLanguage`, `SandboxTargetRegion`, `SandboxResources` is missing
from it.  `missingCreateParamsOnly`: the package imports and exactly
`CreateSandboxParams`, the last name of the try-block import, is
missing.  `full`: every imported name is available. -/
inductive SdkStatus where
  | absent : SdkStatus
  | missingOtherName : SdkStatus
  | missingCreateParamsOnly : SdkStatus
  | full : SdkStatus
deriving DecidableEq

/-- Loading of module `workspace.py` itself (lines 1-64).  Line 7 runs
`from daytona_sdk import DaytonaConfig` outside any try-block, so an
unimportable `daytona_sdk` aborts the load with a raw `ImportError`
before `DAYTONA_INSTALLED` is assigned and before any class is defined.
When the package imports, the try-block of lines 13-25 binds its five
names one at a time; on a missing name it sets
`DAYTONA_INSTALLED = False`, but the `Config` class body (lines 29-64)
then evaluates its annotations eagerly, so when one of the first four
names is the missing one a name such as `SandboxCodeLanguage` (line 36)
is unbound and the load aborts with `NameError`.  The module therefore
loads exactly when at most the last name, `CreateSandboxParams`, is
missing; the result is the value of `DAYTONA_INSTALLED`. -/
def loadModule : SdkStatus → Except PyError Bool
  | SdkStatus.absent => .error PyError.importError
  | SdkStatus.missingOtherName => .error PyError.nameError
  | SdkStatus.missingCreateParamsOnly => .ok false
  | SdkStatus.full => .ok true

/-- An error observed when constructing a `DaytonaWorkspace` end to end:
either the module failed to load (so no class exists to call), or
`__init__` raised a `ComposioSDKError`. -/
inductive ConstructError where
  | moduleError (e : PyError) : ConstructError
  | sdkError (e : ComposioSDKError) : ConstructError
deriving DecidableEq

/-- End-to-end construction of a `DaytonaWorkspace`: load the module,
then call `DaytonaWorkspace.__init__` with the resulting
`DAYTONA_INSTALLED` flag. -/
def constructWorkspace (status : SdkStatus) (config : Config) :
    Except ConstructError DaytonaWorkspace :=
  match loadModule status with
  | .error e => .error (ConstructError.moduleError e)
  | .ok flag =>
    match DaytonaWorkspace.init flag config with
    | .error e => .error (ConstructError.sdkError e)
    | .ok w => .ok w

/-- The fixed internal port, `TOOLSERVER_PORT = 8000` (line 27). -/
def TOOLSERVER_PORT : Nat := 8000

/-- The timeout computation of `_wait` (line 110):
`float(os.environ.get("WORKSPACE_WAIT_TIMEOUT", 60.0))`.  When the
variable is unset, `float` receives the float `60.0` and returns it;
when set, `float` parses the string and raises `ValueError` on failure. -/
def waitTimeout (world : World) : Except PyError Rat :=
  match world.envWorkspaceWaitTimeout with
  | none => .ok 60
  | some s =>
    match world.pyFloat s with
    | some x => .ok x
    | none => .error PyError.valueError

/-- `DaytonaWorkspace.setup` (lines 98-105) followed by `_wait`
(lines 107-111).  Returns the mutated object, the trace of provider
calls actually issued, and the error `_wait` raised, if any.  All
attribute assignments of `setup` happen before `_wait` runs, so the
object is fully updated even when `_wait` raises. -/
def DaytonaWorkspace.setup (world : World) (w : DaytonaWorkspace) :
    DaytonaWorkspace × List Event × Option PyError :=
  let sb := world.createResult w.daytona_create_sandbox_params
  let w1 : DaytonaWorkspace := { w with
    daytona_sandbox := some (some sb),
    url := some (w.daytona.server_url ++ "/toolbox/" ++ sb.id ++ "/toolbox"),
    host := some (world.previewLink sb TOOLSERVER_PORT),
    ports := some ([] : List Nat) }
  let tail : List Event × Option PyError :=
    match waitTimeout world with
    | .ok x => ([Event.waitForStartCall sb x], none)
    | .error e => ([], some e)
  (w1,
   Event.createCall w.daytona_create_sandbox_params ::
     Event.previewLinkCall sb TOOLSERVER_PORT :: tail.1,
   tail.2)

/-- `DaytonaWorkspace.teardown` (lines 113-118):
`super().teardown()`, then
`if hasattr(self, "sandbox") and self.daytona_sandbox is not None:
self.daytona.remove(self.daytona_sandbox)`.  Python's `and` short
circuits: when no attribute named `sandbox` exists, `self.daytona_sandbox`
is never read. -/
def DaytonaWorkspace.teardown (w : DaytonaWorkspace) :
    List Event × Option PyError :=
  if w.has_sandbox_attr then
    match w.daytona_sandbox with
    | none => ([Event.baseTeardownCall], some PyError.attributeError)
    | some none => ([Event.baseTeardownCall], none)
    | some (some sb) => ([Event.baseTeardownCall, Event.removeCall sb], none)
  else
    ([Event.baseTeardownCall], none)

/-- The timeouts of the `wait_for_sandbox_start` calls in a trace. -/
def waitTimeoutsOf : List Event → List Rat
  | [] => []
  | Event.waitForStartCall _ t :: rest => t :: waitTimeoutsOf rest
  | _ :: rest => waitTimeoutsOf rest

/-- The sandboxes passed to `daytona.remove` in a trace. -/
def removeCallsOf : List Event → List Sandbox
  | [] => []
  | Event.removeCall sb :: rest => sb :: removeCallsOf rest
  | _ :: rest => removeCallsOf rest

/-- A sample configuration used by witnesses. -/
def sampleConfig : Config :=
  { api_key := some "k",
    language := none,
    id := none,
    name := none,
    image := none,
    env_vars := none,
    labels := none,
    public := none,
    target := none,
    resources := none,
    auto_stop_interval := none }

/-- The workspace `__init__` builds from `sampleConfig` when the SDK is
installed. -/
def sampleWorkspace : DaytonaWorkspace :=
  { daytona := { config := {
      api_key := some "k",
      server_url := "https://app.daytona.io/api" } },
    daytona_create_sandbox_params := {
      language := none,
      id := none,
      name := none,
      image := none,
      env_vars := none,
      labels := none,
      public := none,
      target := none,
      resources := none,
      auto_stop_interval := none },
    daytona_sandbox := none,
    has_sandbox_attr := false,
    url := none,
    host := none,
    ports := none }

/-- A sample world with `WORKSPACE_WAIT_TIMEOUT` unset. -/
def worldUnset : World :=
  { createResult := fun _ => { id := "sb1" },
    previewLink := fun sb _ => "preview-" ++ sb.id,
    envWorkspaceWaitTimeout := none,
    pyFloat := fun _ => none }

/-- A sample world with `WORKSPACE_WAIT_TIMEOUT` set to a string whose
`float` value is `5`. -/
def worldGood : World :=
  { createResult := fun _ => { id := "sb1" },
    previewLink := fun sb _ => "preview-" ++ sb.id,
    envWorkspaceWaitTimeout := some "5",
    pyFloat := fun _ => some 5 }

/-- A sample world with `WORKSPACE_WAIT_TIMEOUT` set to a string on which
`float` raises `ValueError`. -/
def worldBad : World :=
  { createResult := fun _ => { id := "sb1" },
    previewLink := fun sb _ => "preview-" ++ sb.id,
    envWorkspaceWaitTimeout := some "abc",
    pyFloat := fun _ => none }

/-- A workspace returned by a successful `__init__` has no attribute
named `sandbox`. -/
theorem init_has_sandbox_attr_false (cfg : Config) (w : DaytonaWorkspace)
    (h : DaytonaWorkspace.init true cfg = Except.ok w) :
    w.has_sandbox_attr = false := by
  injection h with h1
  subst h1
  rfl

/-- C1: the claim says teardown after a completed setup calls the
provider's delete on the stored handle.  The code guards the delete with
`hasattr(self, "sandbox")`, but the handle is stored under the attribute
`daytona_sandbox` and nothing ever assigns an attribute named `sandbox`,
so after a successful setup (handle present) teardown issues no
`daytona.remove` call at all. -/
theorem teardown_after_setup_issues_no_remove (world : World) (cfg : Config)
    (w : DaytonaWorkspace)
    (hinit : DaytonaWorkspace.init true cfg = Except.ok w)
    (hok : (DaytonaWorkspace.setup world w).2.2 = none) :
    (DaytonaWorkspace.setup world w).1.daytona_sandbox =
      some (some (world.createResult w.daytona_create_sandbox_params))
    ∧ removeCallsOf
        (DaytonaWorkspace.teardown (DaytonaWorkspace.setup world w).1).1 = [] := by
  have hattr : w.has_sandbox_attr = false :=
    init_has_sandbox_attr_false cfg w hinit
  constructor
  · rfl
  · simp [DaytonaWorkspace.setup, DaytonaWorkspace.teardown, hattr, removeCallsOf]

/-- Witness for `teardown_after_setup_issues_no_remove` at a concrete
configuration and world. -/
theorem teardown_after_setup_issues_no_remove_witness :
    (DaytonaWorkspace.setup worldUnset sampleWorkspace).1.daytona_sandbox =
      some (some (worldUnset.createResult
        sampleWorkspace.daytona_create_sandbox_params))
    ∧ removeCallsOf
        (DaytonaWorkspace.teardown
          (DaytonaWorkspace.setup worldUnset sampleWorkspace).1).1 = [] :=
  teardown_after_setup_issues_no_remove worldUnset sampleConfig sampleWorkspace
    (by rfl) (by rfl)

/-- C2: the claim says that with `daytona_sdk` unimportable, constructing
a `DaytonaWorkspace` raises a descriptive `ComposioSDKError`.  On the
code, the unguarded line-7 `from daytona_sdk import DaytonaConfig`
aborts module loading with a raw `ImportError` before the class is even
defined, so construction fails with `ImportError` and the descriptive
`ComposioSDKError` of lines 71-76 is never raised. -/
theorem construct_without_sdk_aborts_module_import (cfg : Config) :
    constructWorkspace SdkStatus.absent cfg =
      Except.error (ConstructError.moduleError PyError.importError) :=
  rfl

/-- The descriptive error of lines 71-76 is reachable, but only in the
`missingCreateParamsOnly` scenario: there the module loads with
`DAYTONA_INSTALLED = False` and `__init__` raises the
`ComposioSDKError` naming the dependency and the install command. -/
theorem init_false_branch_raises_descriptive_error (cfg : Config) :
    constructWorkspace SdkStatus.missingCreateParamsOnly cfg =
      Except.error (ConstructError.sdkError { message := daytonaMissingMessage })
    ∧ ∃ pre mid post : String,
        daytonaMissingMessage =
          pre ++ "daytona" ++ mid ++ "pip3 install daytona-sdk" ++ post := by
  refine ⟨rfl, "`",
    "` is required to use daytona workspace, run `pip3 install composio-core[daytona]` or `",
    "` to install", ?_⟩
  rfl

/-- C3: `__init__` forwards each of the ten configuration fields into the
creation-parameter bag unchanged (absent fields stay absent), for every
configuration, with no validation or transformation. -/
theorem init_forwards_config_fields (cfg : Config) :
    ∃ w, DaytonaWorkspace.init true cfg = Except.ok w
      ∧ w.daytona_create_sandbox_params.language = cfg.language
      ∧ w.daytona_create_sandbox_params.id = cfg.id
      ∧ w.daytona_create_sandbox_params.name = cfg.name
      ∧ w.daytona_create_sandbox_params.image = cfg.image
      ∧ w.daytona_create_sandbox_params.env_vars = cfg.env_vars
      ∧ w.daytona_create_sandbox_params.labels = cfg.labels
      ∧ w.daytona_create_sandbox_params.public = cfg.public
      ∧ w.daytona_create_sandbox_params.target = cfg.target
      ∧ w.daytona_create_sandbox_params.resources = cfg.resources
      ∧ w.daytona_create_sandbox_params.auto_stop_interval =
          cfg.auto_stop_interval :=
  ⟨_, rfl, rfl, rfl, rfl, rfl, rfl, rfl, rfl, rfl, rfl, rfl⟩

/-- C4: the wait step of setup uses the `float` value of the environment
variable `WORKSPACE_WAIT_TIMEOUT` as its timeout when the variable is
set (and parses), and `60` seconds when it is unset. -/
theorem setup_wait_uses_env_timeout (world : World) (w : DaytonaWorkspace) :
    (world.envWorkspaceWaitTimeout = none →
      waitTimeoutsOf (DaytonaWorkspace.setup world w).2.1 = [(60 : Rat)])
    ∧ ∀ s x, world.envWorkspaceWaitTimeout = some s →
        world.pyFloat s = some x →
        waitTimeoutsOf (DaytonaWorkspace.setup world w).2.1 = [x] := by
  constructor
  · intro h
    simp [DaytonaWorkspace.setup, waitTimeout, h, waitTimeoutsOf]
  · intro s x hs hx
    simp [DaytonaWorkspace.setup, waitTimeout, hs, hx, waitTimeoutsOf]

/-- Witness for `setup_wait_uses_env_timeout`: the unset case gives 60,
a set and parsing value gives that value. -/
theorem setup_wait_uses_env_timeout_witness :
    waitTimeoutsOf (DaytonaWorkspace.setup worldUnset sampleWorkspace).2.1 =
      [(60 : Rat)]
    ∧ waitTimeoutsOf (DaytonaWorkspace.setup worldGood sampleWorkspace).2.1 =
      [(5 : Rat)] :=
  ⟨(setup_wait_uses_env_timeout worldUnset sampleWorkspace).1 rfl,
   (setup_wait_uses_env_timeout worldGood sampleWorkspace).2 "5" 5 rfl rfl⟩

/-- C5: after a successful setup, the management URL is the client's
server URL followed by "/toolbox/", the created sandbox's identifier,
and "/toolbox". -/
theorem setup_url_from_server_and_sandbox_id (world : World)
    (w : DaytonaWorkspace)
    (hok : (DaytonaWorkspace.setup world w).2.2 = none) :
    (DaytonaWorkspace.setup world w).1.url =
      some (w.daytona.server_url ++ "/toolbox/" ++
        (world.createResult w.daytona_create_sandbox_params).id ++
        "/toolbox") :=
  rfl

/-- Witness for `setup_url_from_server_and_sandbox_id` at a concrete
world and workspace. -/
theorem setup_url_from_server_and_sandbox_id_witness :
    (DaytonaWorkspace.setup worldUnset sampleWorkspace).1.url =
      some "https://app.daytona.io/api/toolbox/sb1/toolbox" :=
  setup_url_from_server_and_sandbox_id worldUnset sampleWorkspace (by rfl)

/-- C6: after a successful setup, the host is the created sandbox's
preview link for the fixed internal port `TOOLSERVER_PORT`, which
equals 8000, whatever the configuration. -/
theorem setup_host_is_preview_link_port_8000 (world : World)
    (w : DaytonaWorkspace)
    (hok : (DaytonaWorkspace.setup world w).2.2 = none) :
    (DaytonaWorkspace.setup world w).1.host =
      some (world.previewLink
        (world.createResult w.daytona_create_sandbox_params)
        TOOLSERVER_PORT)
    ∧ TOOLSERVER_PORT = 8000 :=
  ⟨rfl, rfl⟩

/-- Witness for `setup_host_is_preview_link_port_8000` at a concrete
world and workspace. -/
theorem setup_host_is_preview_link_port_8000_witness :
    (DaytonaWorkspace.setup worldUnset sampleWorkspace).1.host =
      some "preview-sb1"
    ∧ TOOLSERVER_PORT = 8000 :=
  setup_host_is_preview_link_port_8000 worldUnset sampleWorkspace (by rfl)

/-- C7: `__init__` builds the provider client from the configuration's
API key and the fixed endpoint, which never depends on the
configuration. -/
theorem init_client_api_key_and_fixed_endpoint (cfg : Config) :
    ∃ w, DaytonaWorkspace.init true cfg = Except.ok w
      ∧ w.daytona.config.api_key = cfg.api_key
      ∧ w.daytona.config.server_url = "https://app.daytona.io/api" :=
  ⟨_, rfl, rfl, rfl⟩

/-- C8: on a freshly constructed workspace (setup never ran), teardown
delegates to the base class and does nothing else: no `daytona.remove`
call and no error from the missing sandbox handle. -/
theorem teardown_without_setup_is_noop (cfg : Config) (w : DaytonaWorkspace)
    (hinit : DaytonaWorkspace.init true cfg = Except.ok w) :
    DaytonaWorkspace.teardown w = ([Event.baseTeardownCall], none) := by
  have hattr : w.has_sandbox_attr = false :=
    init_has_sandbox_attr_false cfg w hinit
  simp [DaytonaWorkspace.teardown, hattr]

/-- Witness for `teardown_without_setup_is_noop` at a concrete
configuration. -/
theorem teardown_without_setup_is_noop_witness :
    DaytonaWorkspace.teardown sampleWorkspace =
      ([Event.baseTeardownCall], none) :=
  teardown_without_setup_is_noop sampleConfig sampleWorkspace (by rfl)

/-- C9: after a successful setup the exposed port list is the empty
list, for every configuration and provider response. -/
theorem setup_ports_empty (world : World) (w : DaytonaWorkspace)
    (hok : (DaytonaWorkspace.setup world w).2.2 = none) :
    (DaytonaWorkspace.setup world w).1.ports = some [] :=
  rfl

/-- Witness for `setup_ports_empty` at a concrete world and workspace. -/
theorem setup_ports_empty_witness :
    (DaytonaWorkspace.setup worldUnset sampleWorkspace).1.ports = some [] :=
  setup_ports_empty worldUnset sampleWorkspace (by rfl)

/-- C10: when `WORKSPACE_WAIT_TIMEOUT` is set to a string `float` cannot
parse, setup raises `ValueError` in the wait step, after the create call
was already issued, and no wait call (in particular none with the
60-second default) is made. -/
theorem setup_bad_timeout_raises_after_create (world : World)
    (w : DaytonaWorkspace) (s : String)
    (hset : world.envWorkspaceWaitTimeout = some s)
    (hbad : world.pyFloat s = none) :
    (DaytonaWorkspace.setup world w).2.2 = some PyError.valueError
    ∧ Event.createCall w.daytona_create_sandbox_params ∈
        (DaytonaWorkspace.setup world w).2.1
    ∧ waitTimeoutsOf (DaytonaWorkspace.setup world w).2.1 = [] := by
  refine ⟨?_, ?_, ?_⟩ <;>
    simp [DaytonaWorkspace.setup, waitTimeout, hset, hbad, waitTimeoutsOf]

/-- Witness for `setup_bad_timeout_raises_after_create` at a concrete
world whose timeout string does not parse. -/
theorem setup_bad_timeout_raises_after_create_witness :
    (DaytonaWorkspace.setup worldBad sampleWorkspace).2.2 =
      some PyError.valueError
    ∧ Event.createCall sampleWorkspace.daytona_create_sandbox_params ∈
        (DaytonaWorkspace.setup worldBad sampleWorkspace).2.1
    ∧ waitTimeoutsOf (DaytonaWorkspace.setup worldBad sampleWorkspace).2.1 =
      [] :=
  setup_bad_timeout_raises_after_create worldBad sampleWorkspace "abc" rfl rfl
